import Mathlib

/-!
Shallow embedding of the wararka/wiilwaal social-network server
(`src/server.js`, `src/unnamed/part_000`): SQLite tables become lists of
row structures, each Express route handler becomes a pure function from
request data and database state to a response value and a new state.
Three revisions of the server appear in the sources; where they differ the
revision a claim cites is modelled and the function name says which one.
-/

namespace Wiilwaal

/-- bcrypt.hash with a fixed salt, modelled as an injective tagging of the
plaintext; bcrypt.compare then checks the tag. -/
def bcryptHash (plain : String) : String := "$2b$10$" ++ plain

/-- bcrypt.compare password hash. -/
def bcryptCompare (password hash : String) : Bool := hash == bcryptHash password

/-- a row of the `users` table (schema in `db.serialize`). -/
structure UserRow where
  id : Nat
  username : String
  password : String
  name : String
  profile_image : String
  bio : Option String
  is_admin : Nat
  is_blocked : Nat
  created_at : Nat
deriving Repr, DecidableEq

/-- a row of the `posts` table. NULLable columns are `Option`s; `privacy`
is an `Option` because the full-revision create-post can bind it to NULL. -/
structure PostRow where
  id : Nat
  user_id : Nat
  content : Option String
  image : Option String
  video : Option String
  audio : Option String
  privacy : Option String
  created_at : Nat
deriving Repr, DecidableEq

/-- a row of the `comments` table. -/
structure CommentRow where
  id : Nat
  post_id : Nat
  user_id : Nat
  content : Option String
  created_at : Nat
deriving Repr, DecidableEq

/-- a row of the `likes` table (no uniqueness constraint on the pair). -/
structure LikeRow where
  id : Nat
  post_id : Nat
  user_id : Nat
deriving Repr, DecidableEq

/-- a row of the `chats` table. -/
structure ChatRow where
  id : Nat
  user1_id : Nat
  user2_id : Nat
deriving Repr, DecidableEq

/-- a row of the `messages` table. -/
structure MessageRow where
  id : Nat
  chat_id : Nat
  sender_id : Nat
  content : Option String
  message_type : String
  file_url : Option String
deriving Repr, DecidableEq

/-- the SQLite database: one list of rows per table the claims touch. -/
structure DB where
  users : List UserRow
  posts : List PostRow
  comments : List CommentRow
  likes : List LikeRow
  chats : List ChatRow
  messages : List MessageRow
deriving Repr, DecidableEq

/-! ## Like toggle — POST /api/posts/:id/like
`db.get` on the (post_id, user_id) pair, then DELETE (unlike) or
INSERT (like); identical in all three revisions. -/

/-- the WHERE clause `post_id = ? AND user_id = ?` of the like lookup. -/
def likeMatches (postId userId : Nat) (l : LikeRow) : Bool :=
  l.post_id == postId && l.user_id == userId

/-- POST /api/posts/:id/like: check-then-act toggle. Returns the `liked`
field of the JSON response and the new state; `nextId` is the fresh
AUTOINCREMENT id used when a row is inserted. -/
def likeToggle (postId userId nextId : Nat) (db : DB) : Bool × DB :=
  match db.likes.find? (likeMatches postId userId) with
  | some _ =>
      (false, { db with likes := db.likes.filter (fun l => !likeMatches postId userId l) })
  | none =>
      (true, { db with likes := db.likes ++ [⟨nextId, postId, userId⟩] })

/-- JS String.prototype.toLowerCase, modelled as per-character simple case
mapping (what `String.map Char.toLower` denotes), written over the
character list so it evaluates. -/
def jsToLower (s : String) : String := ⟨s.data.map Char.toLower⟩

/-! ## Registration — POST /register (latest revision, part_000 lines 165-192)
Validates the three body fields (JS truthiness on strings: empty string is
falsy), lowercases the username, and inserts; the UNIQUE constraint on
`users.username` surfaces as SQLITE_CONSTRAINT, answered with the
user-facing message `Username hore u jiray`. -/

inductive RegisterResult where
  | missingFields
  | duplicateUsername
  | redirectLogin
deriving Repr, DecidableEq

/-- POST /register: returns the outcome and the new state. `nextId` and
`ts` stand for the fresh AUTOINCREMENT id and CURRENT_TIMESTAMP. -/
def register (username password name : String) (profileImage : Option String)
    (nextId ts : Nat) (db : DB) : RegisterResult × DB :=
  if username.isEmpty || password.isEmpty || name.isEmpty then
    (.missingFields, db)
  else if db.users.any (fun u => u.username == jsToLower username) then
    (.duplicateUsername, db)
  else
    (.redirectLogin,
     { db with users := db.users ++
        [⟨nextId, jsToLower username, bcryptHash password, name,
          (match profileImage with
           | some f => "uploads/" ++ f
           | none => "images/default-profile.png"),
          none, 0, 0, ts⟩] })

/-! ## Login — POST /login (latest revision, part_000 lines 195-223)
`db.get` with `WHERE username = ? AND is_blocked = 0` on the lowercased
input, then bcrypt.compare; success writes userId/username/isAdmin into
the session. -/

/-- session data the login handler writes (`req.session`). -/
structure SessionData where
  userId : Option Nat
  username : Option String
  isAdmin : Bool
deriving Repr, DecidableEq

inductive LoginResult where
  | missingFields
  | invalidCredentials
  | success (s : SessionData)
deriving Repr, DecidableEq

/-- the WHERE clause `username = ? AND is_blocked = 0` of the login lookup
(`usernameLower` is the already-lowercased input). -/
def loginMatches (usernameLower : String) (u : UserRow) : Bool :=
  u.username == usernameLower && u.is_blocked == 0

/-- POST /login: pure function of the request body and the users table. -/
def login (username password : String) (db : DB) : LoginResult :=
  if username.isEmpty || password.isEmpty then
    .missingFields
  else
    match db.users.find? (loginMatches (jsToLower username)) with
    | none => .invalidCredentials
    | some u =>
        if bcryptCompare password u.password then
          .success ⟨some u.id, some u.username, u.is_admin == 1⟩
        else
          .invalidCredentials

/-! ## Admin block — POST /api/admin/users/:id/block
`UPDATE users SET is_blocked = ? WHERE id = ?`. -/

/-- POST /api/admin/users/:id/block: sets the flag on every row whose id
matches and touches nothing else. -/
def blockUser (targetId : Nat) (blocked : Bool) (db : DB) : DB :=
  { db with users := db.users.map (fun u =>
      if u.id == targetId then { u with is_blocked := if blocked then 1 else 0 } else u) }

/-! ## Password reset — POST /reset-password
`UPDATE users SET password = ? WHERE username = ?` on the raw body
username: no session, no current-password check, no token. -/

/-- POST /reset-password: its only inputs are the two body fields. -/
def resetPassword (username newPassword : String) (db : DB) : DB :=
  { db with users := db.users.map (fun u =>
      if u.username == username then { u with password := bcryptHash newPassword } else u) }

/-! ## Chat message send — POST /api/chats/:id/messages
`db.get` membership check (`id = ? AND (user1_id = ? OR user2_id = ?)`),
403 on miss, otherwise INSERT into messages. -/

/-- the WHERE clause of the chat-membership lookup. -/
def chatMemberMatches (chatId userId : Nat) (c : ChatRow) : Bool :=
  c.id == chatId && (c.user1_id == userId || c.user2_id == userId)

inductive SendResult where
  | accessDenied
  | sent (messageId : Nat)
deriving Repr, DecidableEq

/-- POST /api/chats/:id/messages: membership check then append. -/
def sendMessage (chatId userId : Nat) (content : Option String)
    (file : Option String) (nextId : Nat) (db : DB) : SendResult × DB :=
  match db.chats.find? (chatMemberMatches chatId userId) with
  | none => (.accessDenied, db)
  | some _ =>
      (.sent nextId,
       { db with messages := db.messages ++
          [⟨nextId, chatId, userId, content,
            (if file.isSome then "file" else "text"),
            (match file with | some f => some ("uploads/" ++ f) | none => none)⟩] })

/-! ## Create post — POST /create-post (latest revision, part_000 lines 256-284)
`const privacy = 'public'` destructuring default when the field is absent;
rejects when content is falsy (absent or empty) and no file was uploaded. -/

/-- JS truthiness test `!content` on an optional string body field. -/
def contentFalsy (content : Option String) : Bool :=
  match content with
  | none => true
  | some s => s.isEmpty

inductive CreatePostResult where
  | missingContent
  | redirectHome
deriving Repr, DecidableEq

/-- POST /create-post (latest revision): validation then INSERT. -/
def createPost (userId : Nat) (content privacy : Option String)
    (image video audio : Option String) (nextId ts : Nat) (db : DB) :
    CreatePostResult × DB :=
  let priv := match privacy with | some p => p | none => "public"
  if contentFalsy content && image.isNone && video.isNone && audio.isNone then
    (.missingContent, db)
  else
    (.redirectHome,
     { db with posts := db.posts ++
        [⟨nextId, userId, content,
          (match image with | some f => some ("uploads/" ++ f) | none => none),
          (match video with | some f => some ("uploads/" ++ f) | none => none),
          (match audio with | some f => some ("uploads/" ++ f) | none => none),
          some priv, ts⟩] })

/-! ## Feed — GET /api/posts
`SELECT p.*, u.username, u.profile_image, like_count, comment_count,
user_liked FROM posts p JOIN users u ON p.user_id = u.id WHERE
p.privacy = 'public' OR p.user_id = ? ORDER BY p.created_at DESC`,
with `LIMIT 50` in the latest revision (part_000) only. -/

/-- one row of the /api/posts response: `p.*` plus the joined and
aggregated columns. -/
structure PostView where
  post : PostRow
  username : String
  profile_image : String
  like_count : Nat
  comment_count : Nat
  user_liked : Bool
deriving Repr, DecidableEq

/-- the WHERE clause `p.privacy = 'public' OR p.user_id = ?`. -/
def postVisible (userId : Nat) (p : PostRow) : Bool :=
  p.privacy == some "public" || p.user_id == userId

/-- the SELECT list: correlated subqueries over likes and comments plus
the joined user columns. -/
def postView (userId : Nat) (db : DB) (p : PostRow) (u : UserRow) : PostView :=
  ⟨p, u.username, u.profile_image,
   (db.likes.filter (fun l => l.post_id == p.id)).length,
   (db.comments.filter (fun c => c.post_id == p.id)).length,
   db.likes.any (fun l => l.post_id == p.id && l.user_id == userId)⟩

/-- FROM posts JOIN users ON p.user_id = u.id, restricted by the WHERE
clause: one row per matching (post, user) pair. -/
def joinedFeedRows (userId : Nat) (db : DB) : List PostView :=
  (db.posts.filter (postVisible userId)).flatMap (fun p =>
    (db.users.filter (fun u => u.id == p.user_id)).map (postView userId db p))

/-- ORDER BY p.created_at DESC as a relation on response rows: `a` may
precede `b` when `a`'s timestamp is at least `b`'s. -/
def feedGe (a b : PostView) : Prop := b.post.created_at ≤ a.post.created_at

instance : DecidableRel feedGe := fun a b =>
  inferInstanceAs (Decidable (b.post.created_at ≤ a.post.created_at))

instance : IsTotal PostView feedGe :=
  ⟨fun a b => Nat.le_total b.post.created_at a.post.created_at⟩

instance : IsTrans PostView feedGe :=
  ⟨fun _ _ _ h h' => Nat.le_trans h' h⟩

/-- GET /api/posts in the full server.js revision (lines 686-704): no row
cap. -/
def apiPosts (userId : Nat) (db : DB) : List PostView :=
  List.insertionSort feedGe (joinedFeedRows userId db)

/-- GET /api/posts in the latest revision (part_000 lines 232-254): the
same query with LIMIT 50. -/
def apiPostsLatest (userId : Nat) (db : DB) : List PostView :=
  (List.insertionSort feedGe (joinedFeedRows userId db)).take 50

/-! ## Profile — GET /api/profile/:username
`SELECT u.*, post_count, like_count FROM users u WHERE u.username = ?`:
the star pulls every column, the stored password hash included. -/

/-- the /api/profile/:username response: the whole user row plus the two
aggregate counts. -/
structure ProfileView where
  user : UserRow
  post_count : Nat
  like_count : Nat
deriving Repr, DecidableEq

/-- GET /api/profile/:username (full revision, lines 644-660). -/
def apiProfile (username : String) (db : DB) : Option ProfileView :=
  (db.users.find? (fun u => u.username == username)).map (fun u =>
    ⟨u, (db.posts.filter (fun p => p.user_id == u.id)).length,
        (db.likes.flatMap (fun l =>
          db.posts.filter (fun p => p.id == l.post_id && p.user_id == u.id))).length⟩)

/-! ## Admin user listing — GET /api/admin/users
`SELECT *, post_count FROM users ORDER BY created_at DESC`. -/

/-- one row of the /api/admin/users response. -/
structure AdminUserView where
  user : UserRow
  post_count : Nat
deriving Repr, DecidableEq

/-- ORDER BY created_at DESC on admin listing rows. -/
def adminUserGe (a b : AdminUserView) : Prop := b.user.created_at ≤ a.user.created_at

instance : DecidableRel adminUserGe := fun a b =>
  inferInstanceAs (Decidable (b.user.created_at ≤ a.user.created_at))

instance : IsTotal AdminUserView adminUserGe :=
  ⟨fun a b => Nat.le_total b.user.created_at a.user.created_at⟩

instance : IsTrans AdminUserView adminUserGe :=
  ⟨fun _ _ _ h h' => Nat.le_trans h' h⟩

/-- GET /api/admin/users (full revision, lines 978-989). -/
def adminUsers (db : DB) : List AdminUserView :=
  List.insertionSort adminUserGe (db.users.map (fun u =>
    ⟨u, (db.posts.filter (fun p => p.user_id == u.id)).length⟩))

/-! ## Session store and guards
express-session keeps per-cookie session data server-side; the guards read
only that data, never the database. -/

/-- the whole server state: database plus the session store, keyed by the
session cookie id. -/
structure AppState where
  db : DB
  sessions : List (Nat × SessionData)
deriving Repr, DecidableEq

/-- requireLogin middleware: passes iff `req.session.userId` is set. -/
def requireLogin (s : SessionData) : Bool := s.userId.isSome

/-- requireAdmin middleware: passes iff userId is set and isAdmin truthy. -/
def requireAdmin (s : SessionData) : Bool := s.userId.isSome && s.isAdmin

/-- the admin block route acting on the whole server state: it runs one
UPDATE against the users table and never touches the session store. -/
def adminBlock (targetId : Nat) (blocked : Bool) (st : AppState) : AppState :=
  { st with db := blockUser targetId blocked st.db }

/-- outcome of the requireLogin guard for a request carrying cookie `sid`. -/
def passesLogin (st : AppState) (sid : Nat) : Bool :=
  match st.sessions.find? (fun p => p.1 == sid) with
  | some p => requireLogin p.2
  | none => false

/-- outcome of the requireAdmin guard for a request carrying cookie `sid`. -/
def passesAdmin (st : AppState) (sid : Nat) : Bool :=
  match st.sessions.find? (fun p => p.1 == sid) with
  | some p => requireAdmin p.2
  | none => false

/-! ## Shared lemmas -/

/-- a list none of whose elements satisfy `p` is unchanged by filtering
with the negation of `p`. -/
theorem filter_not_of_find?_none {α : Type} {p : α → Bool} {l : List α}
    (h : l.find? p = none) : l.filter (fun a => !p a) = l := by
  rw [List.filter_eq_self]
  intro a ha
  rw [List.find?_eq_none] at h
  simp [h a ha]

/-! ## C2 — like toggle -/

/-- C2: from the unliked state, three sequential like calls answer
liked = true, false, true, and after the completed pair of calls the
likes rows for the (post, user) pair — indeed the whole database — are
back to the initial state. -/
theorem likeToggle_toggles (postId userId n1 n2 n3 : Nat) (db : DB)
    (h : db.likes.find? (likeMatches postId userId) = none) :
    (likeToggle postId userId n1 db).1 = true ∧
    (likeToggle postId userId n2 (likeToggle postId userId n1 db).2).1 = false ∧
    (likeToggle postId userId n2 (likeToggle postId userId n1 db).2).2.likes.filter
        (likeMatches postId userId) =
      db.likes.filter (likeMatches postId userId) ∧
    (likeToggle postId userId n2 (likeToggle postId userId n1 db).2).2 = db ∧
    (likeToggle postId userId n3
      (likeToggle postId userId n2 (likeToggle postId userId n1 db).2).2).1 = true := by
  have hstep1 : likeToggle postId userId n1 db =
      (true, { db with likes := db.likes ++ [⟨n1, postId, userId⟩] }) := by
    simp [likeToggle, h]
  have hfind2 : (db.likes ++ [(⟨n1, postId, userId⟩ : LikeRow)]).find?
      (likeMatches postId userId) = some ⟨n1, postId, userId⟩ := by
    rw [List.find?_append, h]
    simp [likeMatches]
  have hstep2 : likeToggle postId userId n2
      ({ db with likes := db.likes ++ [⟨n1, postId, userId⟩] }) = (false, db) := by
    simp only [likeToggle, hfind2]
    have hfilter : (db.likes ++ [(⟨n1, postId, userId⟩ : LikeRow)]).filter
        (fun l => !likeMatches postId userId l) = db.likes := by
      rw [List.filter_append, filter_not_of_find?_none h]
      simp [likeMatches]
    simp [hfilter]
  refine ⟨by rw [hstep1], ?_, ?_, ?_, ?_⟩
  · rw [hstep1, hstep2]
  · rw [hstep1, hstep2]
  · rw [hstep1, hstep2]
  · rw [hstep1, hstep2]
    simp [likeToggle, h]

/-- witness for C2 at a concrete database. -/
theorem likeToggle_toggles_witness :
    (DB.mk [] [] [] [] [] []).likes.find? (likeMatches 5 9) = none ∧
    (likeToggle 5 9 1 (DB.mk [] [] [] [] [] [])).1 = true ∧
    (likeToggle 5 9 2 (likeToggle 5 9 1 (DB.mk [] [] [] [] [] [])).2).1 = false ∧
    (likeToggle 5 9 2 (likeToggle 5 9 1 (DB.mk [] [] [] [] [] [])).2).2 =
      DB.mk [] [] [] [] [] [] := by
  have h := likeToggle_toggles 5 9 1 2 3 (DB.mk [] [] [] [] [] []) (by rfl)
  exact ⟨by rfl, h.1, h.2.1, h.2.2.2.1⟩

/-! ## C3 — duplicate registration -/

/-- C3: after a successful registration, a second registration whose
username agrees with the first up to letter case (all three fields
non-empty) answers the duplicate-username outcome and adds no row: the
users table is left exactly as it was. -/
theorem register_duplicate_username
    (u1 p1 n1 u2 p2 n2 : String) (img1 img2 : Option String)
    (id1 ts1 id2 ts2 : Nat) (db db1 : DB)
    (hu2 : u2.isEmpty = false) (hp2 : p2.isEmpty = false) (hn2 : n2.isEmpty = false)
    (hcase : jsToLower u1 = jsToLower u2)
    (hfirst : register u1 p1 n1 img1 id1 ts1 db = (RegisterResult.redirectLogin, db1)) :
    register u2 p2 n2 img2 id2 ts2 db1 = (RegisterResult.duplicateUsername, db1) := by
  rw [register.eq_def] at hfirst
  by_cases h1 : (u1.isEmpty || p1.isEmpty || n1.isEmpty) = true
  · rw [if_pos h1] at hfirst
    simp at hfirst
  · rw [if_neg h1] at hfirst
    by_cases h2 : db.users.any (fun u => u.username == jsToLower u1) = true
    · rw [if_pos h2] at hfirst
      simp at hfirst
    · rw [if_neg h2] at hfirst
      injection hfirst with hres hdb1
      rw [register.eq_def, if_neg (by simp [hu2, hp2, hn2]), if_pos ?dup]
      case dup =>
        rw [← hdb1]
        simp [List.any_append, hcase]


/-- witness for C3: registering `Amina` then `amina` on an empty database. -/
theorem register_duplicate_username_witness :
    register "amina" "pw2" "Amina B" none 2 2
        (register "Amina" "pw1" "Amina A" none 1 1 (DB.mk [] [] [] [] [] [])).2 =
      (RegisterResult.duplicateUsername,
       (register "Amina" "pw1" "Amina A" none 1 1 (DB.mk [] [] [] [] [] [])).2) :=
  register_duplicate_username "Amina" "pw1" "Amina A" "amina" "pw2" "Amina B"
    none none 1 1 2 2 (DB.mk [] [] [] [] [] []) _
    rfl rfl rfl (by decide) rfl

/-! ## C4 — message send by a non-participant -/

/-- C4: a logged-in user who is neither user1 nor user2 of a chat (chat
ids being unique, as the primary key guarantees) gets the access-denied
answer from the message-send route, and the whole database — the messages
table included — is unchanged. -/
theorem sendMessage_nonparticipant_rejected
    (c : ChatRow) (userId : Nat) (content file : Option String) (nextId : Nat) (db : DB)
    (hc : c ∈ db.chats)
    (huniq : ∀ x ∈ db.chats, x.id = c.id → x = c)
    (h1 : userId ≠ c.user1_id) (h2 : userId ≠ c.user2_id) :
    sendMessage c.id userId content file nextId db = (SendResult.accessDenied, db) := by
  have hfind : db.chats.find? (chatMemberMatches c.id userId) = none := by
    rw [List.find?_eq_none]
    intro x hx
    simp only [chatMemberMatches, Bool.and_eq_true, Bool.or_eq_true, beq_iff_eq, not_and, not_or]
    intro hid
    have hxc : x = c := huniq x hx hid
    subst hxc
    exact ⟨fun h => h1 h.symm, fun h => h2 h.symm⟩
  simp [sendMessage, hfind]

/-- witness for C4: user 9 may not post into the chat between users 2 and 3. -/
theorem sendMessage_nonparticipant_rejected_witness :
    sendMessage 1 9 (some "hey") none 4
        (DB.mk [] [] [] [] [ChatRow.mk 1 2 3] []) =
      (SendResult.accessDenied, DB.mk [] [] [] [] [ChatRow.mk 1 2 3] []) :=
  sendMessage_nonparticipant_rejected (ChatRow.mk 1 2 3) 9 (some "hey") none 4
    (DB.mk [] [] [] [] [ChatRow.mk 1 2 3] [])
    (by decide) (by decide) (by decide) (by decide)

/-! ## C5 — blocked user cannot log in -/

/-- C5: once the admin block operation has set is_blocked on a user's row
(usernames being unique), no login attempt naming that user's username can
succeed, even with the matching password: the login lookup excludes
blocked rows, so the handler answers the invalid-credentials message. -/
theorem login_blocked_user_fails
    (u : UserRow) (username password : String) (db : DB)
    (hu : u ∈ db.users)
    (huniq : ∀ v ∈ db.users, v.username = u.username → v = u)
    (hname : jsToLower username = u.username)
    (hpw : bcryptCompare password u.password = true) :
    (∀ s, login username password (blockUser u.id true db) ≠ LoginResult.success s) ∧
    (username.isEmpty = false → password.isEmpty = false →
      login username password (blockUser u.id true db) = LoginResult.invalidCredentials) := by
  have hfind : (blockUser u.id true db).users.find? (loginMatches (jsToLower username)) = none := by
    rw [List.find?_eq_none]
    intro x hx
    simp only [blockUser, List.mem_map] at hx
    obtain ⟨y, hy, hxy⟩ := hx
    simp only [loginMatches, Bool.and_eq_true, beq_iff_eq, not_and]
    intro hxname
    have hxuname : x.username = y.username := by
      rw [← hxy]
      by_cases hid : (y.id == u.id) = true <;> simp [hid]
    have hyu : y = u := huniq y hy (by rw [← hxuname, hxname, hname])
    subst hyu
    have hxblocked : x.is_blocked = 1 := by
      rw [← hxy]
      simp
    simp [hxblocked]
  constructor
  · intro s
    by_cases hempty : (username.isEmpty || password.isEmpty) = true
    · simp [login, hempty]
    · simp [login, hempty, hfind]
  · intro hne1 hne2
    simp [login, hne1, hne2, hfind]

/-- witness for C5: blocking user 7 kills the login with the matching
password pass1234. -/
theorem login_blocked_user_fails_witness :
    login "Amina" "pass1234"
        (blockUser 7 true
          (DB.mk [UserRow.mk 7 "amina" (bcryptHash "pass1234") "Amina A"
            "images/default-profile.png" none 0 0 1] [] [] [] [] [])) =
      LoginResult.invalidCredentials :=
  (login_blocked_user_fails
    (UserRow.mk 7 "amina" (bcryptHash "pass1234") "Amina A"
      "images/default-profile.png" none 0 0 1)
    "Amina" "pass1234"
    (DB.mk [UserRow.mk 7 "amina" (bcryptHash "pass1234") "Amina A"
      "images/default-profile.png" none 0 0 1] [] [] [] [] [])
    (by decide) (by decide) (by decide) (by decide)).2 rfl rfl

/-! ## C8 — unauthenticated password reset -/

/-- C8: the reset handler is a function of the two body fields alone — no
session, no current-password check, no token — and for every user row
whose username the request names it overwrites the stored hash with the
hash of the new password, while rows with other usernames pass through
unchanged. -/
theorem resetPassword_overwrites_any_user
    (username newPassword : String) (u : UserRow) (db : DB)
    (hu : u ∈ db.users) (hname : u.username = username) :
    { u with password := bcryptHash newPassword } ∈
        (resetPassword username newPassword db).users ∧
    ∀ v ∈ db.users, v.username ≠ username →
      v ∈ (resetPassword username newPassword db).users := by
  constructor
  · simp only [resetPassword, List.mem_map]
    refine ⟨u, hu, ?_⟩
    simp [hname]
  · intro v hv hvname
    simp only [resetPassword, List.mem_map]
    refine ⟨v, hv, ?_⟩
    simp [hvname]

/-- witness for C8: anyone can overwrite user amina's hash by naming her. -/
theorem resetPassword_overwrites_any_user_witness :
    UserRow.mk 7 "amina" (bcryptHash "newpw") "Amina A"
        "images/default-profile.png" none 0 0 1 ∈
      (resetPassword "amina" "newpw"
        (DB.mk [UserRow.mk 7 "amina" (bcryptHash "oldpw") "Amina A"
          "images/default-profile.png" none 0 0 1] [] [] [] [] [])).users :=
  (resetPassword_overwrites_any_user "amina" "newpw"
    (UserRow.mk 7 "amina" (bcryptHash "oldpw") "Amina A"
      "images/default-profile.png" none 0 0 1)
    (DB.mk [UserRow.mk 7 "amina" (bcryptHash "oldpw") "Amina A"
      "images/default-profile.png" none 0 0 1] [] [] [] [] [])
    (by decide) rfl).1

/-! ## C9 — password hash exposure -/

/-- C9: with unique usernames, GET /api/profile/:username answers with the
found user's entire row — the stored bcrypt hash, is_blocked and bio
included — and GET /api/admin/users carries the entire row of every user,
hash included. -/
theorem profile_and_admin_expose_password
    (u : UserRow) (db : DB)
    (hu : u ∈ db.users)
    (huniq : ∀ v ∈ db.users, v.username = u.username → v = u) :
    (∃ pv, apiProfile u.username db = some pv ∧ pv.user = u ∧
      pv.user.password = u.password ∧ pv.user.is_blocked = u.is_blocked ∧
      pv.user.bio = u.bio) ∧
    (∃ av ∈ adminUsers db, av.user = u ∧ av.user.password = u.password) := by
  constructor
  · have hfind : db.users.find? (fun v => v.username == u.username) = some u := by
      cases hx : db.users.find? (fun v => v.username == u.username) with
      | none =>
          rw [List.find?_eq_none] at hx
          exact absurd (by simp : (u.username == u.username) = true) (hx u hu)
      | some x =>
          have hmem : x ∈ db.users := List.mem_of_find?_eq_some hx
          have hpx := List.find?_some hx
          rw [huniq x hmem (by simpa using hpx)]
    refine ⟨⟨u, (db.posts.filter (fun p => p.user_id == u.id)).length,
      (db.likes.flatMap (fun l =>
        db.posts.filter (fun p => p.id == l.post_id && p.user_id == u.id))).length⟩,
      ?_, rfl, rfl, rfl, rfl⟩
    simp [apiProfile, hfind]
  · refine ⟨⟨u, (db.posts.filter (fun p => p.user_id == u.id)).length⟩, ?_, rfl, rfl⟩
    rw [adminUsers, List.mem_insertionSort]
    exact List.mem_map_of_mem _ hu

/-- witness for C9: the profile response for amina carries her stored
bcrypt hash verbatim. -/
theorem profile_and_admin_expose_password_witness :
    ∃ pv, apiProfile "amina"
        (DB.mk [UserRow.mk 7 "amina" (bcryptHash "pass1234") "Amina A"
          "images/default-profile.png" none 0 0 1] [] [] [] [] []) = some pv ∧
      pv.user = UserRow.mk 7 "amina" (bcryptHash "pass1234") "Amina A"
        "images/default-profile.png" none 0 0 1 ∧
      pv.user.password = bcryptHash "pass1234" := by
  obtain ⟨pv, h1, h2, h3, -⟩ :=
    (profile_and_admin_expose_password
      (UserRow.mk 7 "amina" (bcryptHash "pass1234") "Amina A"
        "images/default-profile.png" none 0 0 1)
      (DB.mk [UserRow.mk 7 "amina" (bcryptHash "pass1234") "Amina A"
        "images/default-profile.png" none 0 0 1] [] [] [] [] [])
      (by decide) (by decide)).1
  exact ⟨pv, h1, h2, h3⟩

/-! ## C7 — create-post validation and privacy default -/

/-- C7: with no content (a falsy content field) and no attached file the
create-post route answers the validation error and inserts nothing; and
whenever the insert does happen with no privacy field supplied, the
appended row's privacy column is public. -/
theorem createPost_requires_content_and_defaults_public
    (userId nextId ts : Nat) (db : DB) (privacy content : Option String)
    (hfalsy : contentFalsy content = true) :
    createPost userId content privacy none none none nextId ts db =
      (CreatePostResult.missingContent, db) ∧
    ∀ c image video audio : Option String,
      (contentFalsy c && image.isNone && video.isNone && audio.isNone) = false →
      (createPost userId c none image video audio nextId ts db).1 =
        CreatePostResult.redirectHome ∧
      ∃ row, (createPost userId c none image video audio nextId ts db).2.posts =
        db.posts ++ [row] ∧ row.privacy = some "public" := by
  constructor
  · simp [createPost, hfalsy]
  · intro c image video audio hguard
    rw [createPost.eq_def]
    simp only [hguard]
    exact ⟨rfl, _, rfl, rfl⟩

/-- witness for C7: an empty request is rejected; a request with content
and no privacy field lands with privacy public. -/
theorem createPost_requires_content_and_defaults_public_witness :
    createPost 7 none none none none none 3 5 (DB.mk [] [] [] [] [] []) =
      (CreatePostResult.missingContent, DB.mk [] [] [] [] [] []) ∧
    (createPost 7 (some "Salaan") none none none none 3 5 (DB.mk [] [] [] [] [] [])).1 =
      CreatePostResult.redirectHome ∧
    ∃ row,
      (createPost 7 (some "Salaan") none none none none 3 5
        (DB.mk [] [] [] [] [] [])).2.posts = [] ++ [row] ∧
      row.privacy = some "public" := by
  have h := createPost_requires_content_and_defaults_public 7 3 5
    (DB.mk [] [] [] [] [] []) none none rfl
  exact ⟨h.1, h.2 (some "Salaan") none none none rfl⟩

/-! ## C10 — block touches only is_blocked; sessions and guards survive -/

/-- C10: the admin block route rewrites only the is_blocked column of rows
whose id is the target, leaves every other table and the session store
untouched, and because the two guards read session data only, the guard
outcome for any session cookie — a blocked user's included — is the same
before and after the block. -/
theorem adminBlock_frame_and_guards
    (targetId : Nat) (blocked : Bool) (st : AppState) (sid : Nat) :
    (adminBlock targetId blocked st).sessions = st.sessions ∧
    (adminBlock targetId blocked st).db.posts = st.db.posts ∧
    (adminBlock targetId blocked st).db.comments = st.db.comments ∧
    (adminBlock targetId blocked st).db.likes = st.db.likes ∧
    (adminBlock targetId blocked st).db.chats = st.db.chats ∧
    (adminBlock targetId blocked st).db.messages = st.db.messages ∧
    List.Forall₂ (fun u v =>
        v.id = u.id ∧ v.username = u.username ∧ v.password = u.password ∧
        v.name = u.name ∧ v.profile_image = u.profile_image ∧ v.bio = u.bio ∧
        v.is_admin = u.is_admin ∧ v.created_at = u.created_at ∧
        (u.id ≠ targetId → v.is_blocked = u.is_blocked) ∧
        (u.id = targetId → v.is_blocked = if blocked then 1 else 0))
      st.db.users (adminBlock targetId blocked st).db.users ∧
    passesLogin (adminBlock targetId blocked st) sid = passesLogin st sid ∧
    passesAdmin (adminBlock targetId blocked st) sid = passesAdmin st sid := by
  refine ⟨rfl, rfl, rfl, rfl, rfl, rfl, ?_, rfl, rfl⟩
  show List.Forall₂ _ st.db.users (st.db.users.map _)
  rw [List.forall₂_map_right_iff]
  rw [List.forall₂_same]
  intro u hu
  by_cases hid : (u.id == targetId) = true
  · have : u.id = targetId := by simpa using hid
    simp [hid, this]
  · have : ¬ u.id = targetId := by simpa using hid
    simp [hid, this]

/-- witness for C10: blocking user 7 leaves the session store and the
admin guard outcome for cookie 1 unchanged. -/
theorem adminBlock_frame_and_guards_witness :
    (adminBlock 7 true
        (AppState.mk (DB.mk [UserRow.mk 7 "amina" "h" "A" "i" none 0 0 1] [] [] [] [] [])
          [(1, SessionData.mk (some 7) (some "amina") false)])).sessions =
      [(1, SessionData.mk (some 7) (some "amina") false)] ∧
    passesLogin
        (adminBlock 7 true
          (AppState.mk (DB.mk [UserRow.mk 7 "amina" "h" "A" "i" none 0 0 1] [] [] [] [] [])
            [(1, SessionData.mk (some 7) (some "amina") false)])) 1 =
      passesLogin
        (AppState.mk (DB.mk [UserRow.mk 7 "amina" "h" "A" "i" none 0 0 1] [] [] [] [] [])
          [(1, SessionData.mk (some 7) (some "amina") false)]) 1 := by
  have h := adminBlock_frame_and_guards 7 true
    (AppState.mk (DB.mk [UserRow.mk 7 "amina" "h" "A" "i" none 0 0 1] [] [] [] [] [])
      [(1, SessionData.mk (some 7) (some "amina") false)]) 1
  exact ⟨h.1, h.2.2.2.2.2.2.2.1⟩

/-! ## C1 — non-public posts are owner-only in the feed -/

/-- C1: a post whose privacy column is not public never appears in the
/api/posts result of a requester other than its owner, and does appear in
the owner's own result whenever the owner's user row exists for the JOIN
to land. -/
theorem apiPosts_private_only_owner
    (p : PostRow) (requester : Nat) (db : DB)
    (hp : p ∈ db.posts)
    (hpriv : p.privacy ≠ some "public") :
    (requester ≠ p.user_id → ∀ v ∈ apiPosts requester db, v.post ≠ p) ∧
    ((∃ u ∈ db.users, u.id = p.user_id) →
      ∃ v ∈ apiPosts p.user_id db, v.post = p) := by
  constructor
  · intro hne v hv hvp
    rw [apiPosts, List.mem_insertionSort, joinedFeedRows, List.mem_flatMap] at hv
    obtain ⟨q, hq, hv2⟩ := hv
    rw [List.mem_filter] at hq
    rw [List.mem_map] at hv2
    obtain ⟨u, hu, hvq⟩ := hv2
    have hqp : q = p := by rw [← hvp, ← hvq]; rfl
    subst hqp
    have hvis := hq.2
    rw [postVisible] at hvis
    simp only [Bool.or_eq_true, beq_iff_eq] at hvis
    rcases hvis with h | h
    · exact hpriv h
    · exact hne h.symm
  · rintro ⟨u, hu, huid⟩
    refine ⟨postView p.user_id db p u, ?_, rfl⟩
    rw [apiPosts, List.mem_insertionSort, joinedFeedRows, List.mem_flatMap]
    refine ⟨p, ?_, ?_⟩
    · rw [List.mem_filter]
      exact ⟨hp, by simp [postVisible]⟩
    · rw [List.mem_map]
      refine ⟨u, ?_, rfl⟩
      rw [List.mem_filter]
      exact ⟨hu, by simp [huid]⟩

/-- witness for C1: user 1's private post is invisible to user 2 and
visible to user 1. -/
theorem apiPosts_private_only_owner_witness :
    (∀ v ∈ apiPosts 2
        (DB.mk [UserRow.mk 1 "a" "h" "A" "i" none 0 0 1]
          [PostRow.mk 10 1 (some "s") none none none (some "private") 5] [] [] [] []),
      v.post ≠ PostRow.mk 10 1 (some "s") none none none (some "private") 5) ∧
    (∃ v ∈ apiPosts 1
        (DB.mk [UserRow.mk 1 "a" "h" "A" "i" none 0 0 1]
          [PostRow.mk 10 1 (some "s") none none none (some "private") 5] [] [] [] []),
      v.post = PostRow.mk 10 1 (some "s") none none none (some "private") 5) := by
  have h := apiPosts_private_only_owner
    (PostRow.mk 10 1 (some "s") none none none (some "private") 5) 2
    (DB.mk [UserRow.mk 1 "a" "h" "A" "i" none 0 0 1]
      [PostRow.mk 10 1 (some "s") none none none (some "private") 5] [] [] [] [])
    (by decide) (by decide)
  exact ⟨h.1 (by decide), h.2 (by decide)⟩

/-! ## C6 — feed order, the 50-row cap, and completeness -/

/-- C6: the latest revision's /api/posts result is the at-most-50-row
front of the full sorted feed: it is ordered newest first (descending
created_at), its length is exactly the smaller of 50 and the full feed's
length, it is a front segment of the uncapped feed, every returned row is
a visible post, every visible post with an existing author row yields a
row of the uncapped feed, and when the whole feed fits under the cap,
every such post appears in the capped result too. -/
theorem apiPostsLatest_returns_visible_sorted_capped (userId : Nat) (db : DB) :
    List.Sorted feedGe (apiPosts userId db) ∧
    List.Sorted feedGe (apiPostsLatest userId db) ∧
    (apiPostsLatest userId db).length ≤ 50 ∧
    (apiPostsLatest userId db).length = min 50 (apiPosts userId db).length ∧
    (∃ rest, apiPostsLatest userId db ++ rest = apiPosts userId db) ∧
    (∀ v ∈ apiPostsLatest userId db,
      v.post ∈ db.posts ∧ postVisible userId v.post = true) ∧
    (∀ p ∈ db.posts, postVisible userId p = true →
      ∀ u ∈ db.users, u.id = p.user_id →
        postView userId db p u ∈ apiPosts userId db) ∧
    ((apiPosts userId db).length ≤ 50 →
      ∀ p ∈ db.posts, postVisible userId p = true →
      ∀ u ∈ db.users, u.id = p.user_id →
        ∃ v ∈ apiPostsLatest userId db, v.post = p) := by
  have hcomplete : ∀ p ∈ db.posts, postVisible userId p = true →
      ∀ u ∈ db.users, u.id = p.user_id →
        postView userId db p u ∈ apiPosts userId db := by
    intro p hp hvis u hu huid
    rw [apiPosts, List.mem_insertionSort, joinedFeedRows, List.mem_flatMap]
    refine ⟨p, ?_, ?_⟩
    · rw [List.mem_filter]
      exact ⟨hp, hvis⟩
    · rw [List.mem_map]
      refine ⟨u, ?_, rfl⟩
      rw [List.mem_filter]
      exact ⟨hu, by simp [huid]⟩
  refine ⟨List.sorted_insertionSort feedGe _, ?_, ?_, ?_, ?_, ?_, hcomplete, ?_⟩
  · rw [apiPostsLatest]
    exact List.Pairwise.sublist (List.take_sublist 50 _)
      (List.sorted_insertionSort feedGe _)
  · rw [apiPostsLatest]
    exact List.length_take_le 50 _
  · rw [apiPostsLatest, apiPosts]
    exact List.length_take 50 _
  · exact ⟨(apiPosts userId db).drop 50, List.take_append_drop 50 _⟩
  · intro v hv
    have hv' : v ∈ List.insertionSort feedGe (joinedFeedRows userId db) :=
      (List.take_sublist 50 _).subset hv
    rw [List.mem_insertionSort, joinedFeedRows, List.mem_flatMap] at hv'
    obtain ⟨q, hq, hv2⟩ := hv'
    rw [List.mem_filter] at hq
    rw [List.mem_map] at hv2
    obtain ⟨u, hu, hvq⟩ := hv2
    have hpost : v.post = q := by rw [← hvq]; rfl
    rw [hpost]
    exact ⟨hq.1, hq.2⟩
  · intro hlen p hp hvis u hu huid
    have hall : apiPostsLatest userId db = apiPosts userId db := by
      rw [apiPostsLatest, ← apiPosts]
      exact List.take_of_length_le hlen
    refine ⟨postView userId db p u, ?_, rfl⟩
    rw [hall]
    exact hcomplete p hp hvis u hu huid

/-- witness for C6: on a one-post database the capped feed has the full
feed's length and carries the visible post. -/
theorem apiPostsLatest_returns_visible_sorted_capped_witness :
    (apiPostsLatest 1
      (DB.mk [UserRow.mk 1 "a" "h" "A" "i" none 0 0 1]
        [PostRow.mk 10 1 (some "s") none none none (some "public") 5] [] [] [] [])).length =
      min 50 (apiPosts 1
        (DB.mk [UserRow.mk 1 "a" "h" "A" "i" none 0 0 1]
          [PostRow.mk 10 1 (some "s") none none none (some "public") 5] [] [] [] [])).length ∧
    ∃ v ∈ apiPostsLatest 1
        (DB.mk [UserRow.mk 1 "a" "h" "A" "i" none 0 0 1]
          [PostRow.mk 10 1 (some "s") none none none (some "public") 5] [] [] [] []),
      v.post = PostRow.mk 10 1 (some "s") none none none (some "public") 5 := by
  have h := apiPostsLatest_returns_visible_sorted_capped 1
    (DB.mk [UserRow.mk 1 "a" "h" "A" "i" none 0 0 1]
      [PostRow.mk 10 1 (some "s") none none none (some "public") 5] [] [] [] [])
  refine ⟨h.2.2.2.1, ?_⟩
  exact h.2.2.2.2.2.2.2 (by decide)
    (PostRow.mk 10 1 (some "s") none none none (some "public") 5) (by decide) (by decide)
    (UserRow.mk 1 "a" "h" "A" "i" none 0 0 1) (by decide) (by decide)

end Wiilwaal
